import Mathlib

/-!
Verification of the geometry reconstruction, repair and validation core of the
`acorn-dqm-streamlit` repository (files `src/core/gt_check_functions.py`,
`src/gt_check_functions.py`, `src/gt_check_akvo.py`, `src/utils/geometry_utils.py`).

Modelling conventions of this shallow embedding:
* A polygon geometry is its exterior-ring coordinate sequence, a `List (ℚ × ℚ)`
  of `(x, y)` pairs as shapely stores them (the closing duplicate point
  included when present); `[]` is the canonical empty polygon.  The pipeline
  under verification only ever feeds `Polygon` values (possibly `None`, which
  is modelled by `Option`) into the functions modelled here.
* Python floats are idealised as exact rationals (`ℚ`); literal constants such
  as `0.995`, `1.005` and `1e-9` are taken at their decimal value.
* Python strings are modelled as `List Char`; `str.split(sep)` and
  `str.strip()` are re-implemented below with Python's semantics
  (`pySplit`, `pyStrip`).
* A Python exception escaping a modelled function is an `Except.error ()`
  result.
* Primitives supplied by the external GEOS/shapely/pyproj libraries
  (`is_valid`, `area`, `buffer`, `convex_hull`, coordinate transforms, ...)
  are not code of this repository; they are abstracted as the fields of a
  `ShapelyOps` record over which the theorems quantify, with the few facts a
  proof needs about them (for instance, that the empty polygon is valid)
  stated as explicit hypotheses that are true of GEOS.
-/

/-- A polygon's exterior-ring coordinate list; `[]` is the empty polygon. -/
abbrev Geom := List (ℚ × ℚ)

/-- Python `str.strip` / `if not vertex.strip()` whitespace test. -/
def pyWhitespaceChar (c : Char) : Bool :=
  c = ' ' || c = '\t' || c = '\n' || c = '\r'

/-- Python `str.strip()`: drop leading and trailing whitespace. -/
def pyStrip (cs : List Char) : List Char :=
  ((cs.dropWhile pyWhitespaceChar).reverse.dropWhile pyWhitespaceChar).reverse

/-- Python `str.split(sep)` for a one-character separator: splits at every
occurrence of `sep`, keeping empty fragments (`"".split(sep) == [""]`). -/
def pySplit (sep : Char) : List Char → List (List Char)
  | [] => [[]]
  | c :: rest =>
    let r := pySplit sep rest
    if c = sep then [] :: r
    else
      match r with
      | h :: t => (c :: h) :: t
      | [] => [[c]]

/-- Value of a decimal digit character, `none` for anything else. -/
def digitVal? (c : Char) : Option Nat :=
  if c.isDigit then some (c.toNat - 48) else none

/-- Read a nonempty all-digit character list as a natural number
(accumulator-style); `none` as soon as a non-digit appears. -/
def parseDigitsAux (acc : Nat) : List Char → Option Nat
  | [] => some acc
  | c :: cs =>
    match digitVal? c with
    | some d => parseDigitsAux (10 * acc + d) cs
    | none => none

/-- Unsigned part of Python `float(str)` on plain decimal numerals:
digits with at most one decimal point and at least one digit
(`"36"`, `"36.8"`, `".5"`, `"5."`).  Numerals outside this fragment
(exponents, `inf`, `nan`, underscores) are outside this development's
input domain and give `none`. -/
def parseRatCore (cs : List Char) : Option ℚ :=
  match pySplit '.' cs with
  | [ip] =>
    if ip = [] then none
    else (parseDigitsAux 0 ip).map (fun n => (n : ℚ))
  | [ip, fp] =>
    if ip = [] && fp = [] then none
    else do
      let i ← if ip = [] then some 0 else parseDigitsAux 0 ip
      let f ← if fp = [] then some 0 else parseDigitsAux 0 fp
      pure ((i : ℚ) + (f : ℚ) / ((10 : ℚ) ^ fp.length))
  | _ => none

/-- Python `float(str)` on plain signed decimal numerals (see `parseRatCore`). -/
def parseRat? : List Char → Option ℚ
  | '-' :: rest => (parseRatCore rest).map (fun q => -q)
  | '+' :: rest => parseRatCore rest
  | cs => parseRatCore cs

/-- Is an `Except` result a success?  (Models "the Python call returned
without raising".) -/
def exceptIsOk {ε α : Type} : Except ε α → Bool
  | Except.ok _ => true
  | Except.error _ => false

/-- `is_invalid_polygon_string` (src/core/gt_check_functions.py:584):
`pd.isna(polygon_string)` (modelled by `none`) or the string having exactly
the Excel cell-limit length 32767 marks the raw string unusable. -/
def is_invalid_polygon_string (polygon_string : Option String) : Bool :=
  match polygon_string with
  | none => true
  | some s => s.data.length == 32767

/-- The vertex-skipping test of `coordinates_from_vertices`
(src/core/gt_check_functions.py:614-621): skip when accuracy exceeds the
threshold, and (unless `accuracy_zero_valid`) also when
`abs(accuracy - 0.0) < 1e-9`. -/
def skip_vertex (accuracy accuracy_m : ℚ) (accuracy_zero_valid : Bool) : Bool :=
  if accuracy_zero_valid then decide (accuracy > accuracy_m)
  else decide (accuracy > accuracy_m ∨ |accuracy - 0| < 1 / 1000000000)

/-- `coordinates_from_vertices` (src/core/gt_check_functions.py:601-627).
Each vertex token is `lon lat alt accuracy` space-separated; blank tokens are
skipped, accuracy-filtered tokens are skipped, and any token whose needed
fields are missing or non-numeric makes the Python code raise
(`IndexError` on `parts[3]` / `ValueError` in `float`), modelled as
`Except.error ()`.  Returns the surviving `(lat, lon)` pairs and the skip
count. -/
def coordinates_from_vertices (vertices : List (List Char)) (accuracy_m : ℚ)
    (accuracy_zero_valid : Bool) : Except Unit (List (ℚ × ℚ) × Nat) :=
  match vertices with
  | [] => Except.ok ([], 0)
  | vertex :: rest =>
    if pyStrip vertex = [] then
      match coordinates_from_vertices rest accuracy_m accuracy_zero_valid with
      | Except.ok (cs, k) => Except.ok (cs, k + 1)
      | Except.error e => Except.error e
    else
      let parts := pySplit ' ' (pyStrip vertex)
      match (parts[3]?).bind parseRat? with
      | none => Except.error ()
      | some accuracy =>
        if skip_vertex accuracy accuracy_m accuracy_zero_valid then
          match coordinates_from_vertices rest accuracy_m accuracy_zero_valid with
          | Except.ok (cs, k) => Except.ok (cs, k + 1)
          | Except.error e => Except.error e
        else
          match (parts[0]?).bind parseRat?, (parts[1]?).bind parseRat? with
          | some lon, some lat =>
            match coordinates_from_vertices rest accuracy_m accuracy_zero_valid with
            | Except.ok (cs, k) => Except.ok ((lat, lon) :: cs, k)
            | Except.error e => Except.error e
          | _, _ => Except.error ()

/-- Shapely `Polygon(coordinates)` on three or more points: the exterior ring
is the coordinate list, closed with a duplicate of the first point when the
input is not already closed. -/
def polygonOfCoords (coordinates : List (ℚ × ℚ)) : Geom :=
  match coordinates with
  | [] => []
  | c :: _ => if coordinates.getLast? = some c then coordinates else coordinates ++ [c]

/-- `geom_from_scto_str` (src/core/gt_check_functions.py:630-646): parse the
semicolon-separated vertex string of one survey row into a polygon.  Returns
the empty polygon for an unusable raw string, and also when
`len(coordinates) < 3 or len(coordinates) < skip_coordinates_counter * 4`. -/
def geom_from_scto_str (polygon_string : Option String) (accuracy_m : ℚ)
    (accuracy_zero_valid : Bool) : Except Unit Geom :=
  if is_invalid_polygon_string polygon_string then Except.ok []
  else
    match polygon_string with
    | none => Except.ok []
    | some s =>
      match coordinates_from_vertices (pySplit ';' s.data) accuracy_m accuracy_zero_valid with
      | Except.error e => Except.error e
      | Except.ok (coordinates, skip_coordinates_counter) =>
        if coordinates.length < 3 ∨ coordinates.length < skip_coordinates_counter * 4 then
          Except.ok []
        else Except.ok (polygonOfCoords coordinates)

/-- Well-formedness of one raw vertex token with respect to the fields the
parser actually reads: blank tokens are fine (counted as skips), otherwise
field 3 must parse as a number, and when the vertex survives the accuracy
filter fields 0 and 1 must parse as well.  Exactly the tokens violating this
make `coordinates_from_vertices` raise. -/
def vertex_token_ok (accuracy_m : ℚ) (accuracy_zero_valid : Bool) (vertex : List Char) : Bool :=
  if pyStrip vertex = [] then true
  else
    let parts := pySplit ' ' (pyStrip vertex)
    match (parts[3]?).bind parseRat? with
    | none => false
    | some accuracy =>
      if skip_vertex accuracy accuracy_m accuracy_zero_valid then true
      else ((parts[0]?).bind parseRat?).isSome && ((parts[1]?).bind parseRat?).isSome

/-- The primitives the repository calls in the external shapely/GEOS,
`geojson_rewind` and pyproj libraries.  They are not code of this repository,
so the development abstracts them as an explicit record of operations; the
theorems quantify over it and state the (GEOS-true) facts they need about its
fields as hypotheses. -/
structure ShapelyOps where
  /-- `geom.is_valid` (GEOS topological validity; the empty polygon is valid). -/
  isValid : Geom → Bool
  /-- `geom.area` (planar shoelace area of the ring). -/
  area : Geom → ℚ
  /-- `abs(Geod(ellps="WGS84").geometry_area_perimeter(geom)[0])`, the geodesic
  area used by `calculate_area(..., geodisic=True)`. -/
  geodArea : Geom → ℚ
  /-- `geom.centroid` as an `(x, y)` pair. -/
  centroid : Geom → ℚ × ℚ
  /-- `geom.buffer(0)`. -/
  buffer0 : Geom → Geom
  /-- `geom.convex_hull`. -/
  convexHull : Geom → Geom
  /-- `shapely.geometry.polygon.orient(geom)`. -/
  orientOp : Geom → Geom
  /-- `shape(json.loads(rewind(json.dumps(mapping(geom)))))`, the
  geojson_rewind round trip of `fix_with_rewind`. -/
  rewindOp : Geom → Geom
  /-- The pyproj WGS84→UTM coordinate transform applied by `geom_to_utm` /
  `geom_to_utm_with_crs` after their own bound checks. -/
  toUTM : Geom → Geom
  /-- The pyproj UTM→WGS84 back-transform of `simplify_geometry`. -/
  fromUTM : Geom → Geom
  /-- `geom.simplify(tolerance, preserve_topology=True)`. -/
  simplifyTopo : Geom → ℚ → Geom
  /-- `geom.representative_point().buffer(0.00005)` from `replace_invalid`. -/
  reprPointBuf : Geom → Geom
  /-- `a.covers(b)`. -/
  covers : Geom → Geom → Bool
  /-- `Point(p).buffer(radius)`, the circle of `all_points_in_radius`. -/
  bufferPoint : ℚ × ℚ → ℚ → Geom
  /-- The per-feature-pair intersection geometry computed by
  `GeoDataFrame.overlay` (`none` when the two features do not intersect, so
  the pair yields no overlay row). -/
  inter : Geom → Geom → Option Geom
  /-- The shared-frame WGS84→UTM reprojection of `wgs_to_utm` (`to_crs`). -/
  utmBatchProj : Geom → Geom
  /-- The `to_crs(crs)` reprojection back to WGS84 inside `validate_overlap`. -/
  wgsBackProj : Geom → Geom
  /-- `geom.buffer(d)` for a (possibly negative) distance `d`. -/
  bufferDist : Geom → ℚ → Geom

/-- A JSON value, the target of the repository's `mapping`/`to_geojson`
dictionary building (`json.dumps` serialisation to text is outside the
model). -/
inductive Json where
  | jstr : String → Json
  | jnum : ℚ → Json
  | jarr : List Json → Json
  | jobj : List (String × Json) → Json

/-- Python `round(x, ndigits)` idealised on rationals: scale, round half to
even, unscale. -/
def pyRoundHalfEven (q : ℚ) : ℤ :=
  let f := ⌊q⌋
  if q - f < 1 / 2 then f
  else if 1 / 2 < q - f then f + 1
  else if f % 2 = 0 then f else f + 1

/-- Round a rational to `ndigits` decimal digits (Python `round`). -/
def round_to (ndigits : Nat) (q : ℚ) : ℚ :=
  (pyRoundHalfEven (q * (10 : ℚ) ^ ndigits) : ℚ) / (10 : ℚ) ^ ndigits

/-- `round_coordinates` (src/core/gt_check_functions.py:86-96) on a polygon:
round every coordinate to `ndigits` decimals. -/
def round_coordinates (geom : Geom) (ndigits : Nat) : Geom :=
  geom.map (fun p => (round_to ndigits p.1, round_to ndigits p.2))

/-- `mapping` (src/core/gt_check_functions.py:50-52), the `__geo_interface__`
of a polygon: `{"type": "Polygon", "coordinates": (ring,)}` (no ring at all
for the empty polygon). -/
def mapping (geom : Geom) : Json :=
  Json.jobj
    [("type", Json.jstr "Polygon"),
     ("coordinates",
      Json.jarr
        (if geom = [] then []
         else [Json.jarr (geom.map (fun p => Json.jarr [Json.jnum p.1, Json.jnum p.2]))]))]

/-- `to_geojson` (src/core/gt_check_functions.py:104-120): `None` stays
`None`; otherwise a one-feature FeatureCollection around the geometry with
coordinates rounded to 7 decimals. -/
def to_geojson (geom : Option Geom) (fid : String) : Option Json :=
  match geom with
  | none => none
  | some g =>
    some (Json.jobj
      [("type", Json.jstr "FeatureCollection"),
       ("features",
        Json.jarr
          [Json.jobj
            [("type", Json.jstr "Feature"),
             ("properties", Json.jobj [("id", Json.jstr fid)]),
             ("geometry", mapping (round_coordinates g 7))]])])

/-- One pipeline record (a pandas row) as `collect_reasons_subplot` reads it:
`none` in a field models the column being absent from `row.index`, and
`geometry = none` models a `None` geometry. -/
structure Row where
  geometry : Option Geom
  overlap_ids : Option String
  duplicate_id : Option Bool
  in_country : Option Bool
  in_radius : Option Bool
  area_m2 : Option ℚ
  nr_vertices_too_small : Option Bool
  protruding_ratio_too_big : Option Bool
  subplot_id : Option String

/-- `collect_reasons_subplot` (src/core/gt_check_functions.py:654-704):
three terminal states (missing / empty / invalid geometry), then the ordered
independent flag checks joined with `";"`. -/
def collect_reasons_subplot (S : ShapelyOps) (row : Row) (min_subplot_area_size max_subplot_area_size : ℚ) : String :=
  match row.geometry with
  | none => "Geometry missing"
  | some g =>
    if g = [] then "Empty geometry"
    else if S.isValid g = false then "Invalid geometry"
    else
      let reasons : List String :=
        [(match row.overlap_ids with
          | some ids => if ids ≠ "" then "Overlapping polygons" else ""
          | none => ""),
         (match row.duplicate_id with
          | some b => if b then "Duplicate plot id" else ""
          | none => ""),
         (match row.in_country with
          | some b => if b = false then "Boundary not in country" else ""
          | none => ""),
         (match row.in_radius with
          | some b => if b = false then "Plot outside of radius" else ""
          | none => ""),
         (match row.area_m2 with
          | some a => if a < min_subplot_area_size then "Plot too small" else ""
          | none => ""),
         (match row.area_m2 with
          | some a => if a > max_subplot_area_size then "Plot too big" else ""
          | none => ""),
         (match row.nr_vertices_too_small with
          | some b => if b then "Nr vertices <= 3" else ""
          | none => ""),
         (match row.protruding_ratio_too_big with
          | some b => if b then "Plot is protruding" else ""
          | none => "")]
      String.intercalate ";" (reasons.filter (fun r => r ≠ ""))

/-- The fields `assign_geom_valid_geojson` adds to each record. -/
structure AssignedRow where
  reasons : String
  geom_valid : Bool
  geojson : Option Json

/-- `assign_geom_valid_geojson` (src/core/gt_check_functions.py:714-725) on
one record: `reasons` from `collect_reasons_subplot`, `geom_valid` as
`len(reasons) == 0`, and the record's GeoJSON. -/
def assign_geom_valid_geojson (S : ShapelyOps) (row : Row) (min_area max_area : ℚ) : AssignedRow :=
  let reasons := collect_reasons_subplot S row min_area max_area
  { reasons := reasons
    geom_valid := reasons.length == 0
    geojson := to_geojson row.geometry (row.subplot_id.getD "unknown") }

/-- `remove_duplicate_vertices` (src/core/gt_check_functions.py:310-326).
The guard `if ~len(coords_list) == 0:` in the source is Python bitwise
negation of the length, so it compares `-(len+1)` with `0` and is false for
every list; the deduplication body below it is therefore unreachable and the
function returns its input unchanged (a fresh empty polygon for an empty
input).  The unreachable body is still modelled; `list(set(...))`, whose
element order Python leaves unspecified, is rendered with `List.eraseDups`. -/
def remove_duplicate_vertices (geom : Geom) : Geom :=
  if geom = [] then []
  else
    let coords_list := geom
    if -((coords_list.length : ℤ)) - 1 = 0 then
      let cl := if coords_list.head? = coords_list.getLast? then coords_list.dropLast else coords_list
      let unique_vertices := cl.eraseDups
      if unique_vertices.length < cl.length then
        let uv := unique_vertices ++ [unique_vertices.headD (0, 0)]
        if uv.length > 2 then uv else []
      else geom
    else geom

/-- `fix_self_intersecting_square` (src/core/gt_check_functions.py:234-243):
replace an invalid ring of exactly 5 coordinate entries by its convex hull. -/
def fix_self_intersecting_square (S : ShapelyOps) (geom : Option Geom) : Option Geom :=
  match geom with
  | none => none
  | some g =>
    if S.isValid g then some g
    else if g.length = 5 then some (S.convexHull g)
    else some g

/-- `fix_with_orient` (src/core/gt_check_functions.py:246-255): try shapely
`orient` on an invalid geometry, keeping the result only if it is valid. -/
def fix_with_orient (S : ShapelyOps) (geom : Option Geom) : Option Geom :=
  match geom with
  | none => none
  | some g =>
    if S.isValid g then some g
    else
      let new_geom := S.orientOp g
      if S.isValid new_geom then some new_geom else some g

/-- `fix_with_rewind` (src/core/gt_check_functions.py:258-267): try the
GeoJSON right-hand-rule rewind round trip on an invalid geometry, keeping the
result only if it is valid. -/
def fix_with_rewind (S : ShapelyOps) (geom : Option Geom) : Option Geom :=
  match geom with
  | none => none
  | some g =>
    if S.isValid g then some g
    else
      let new_geom := S.rewindOp g
      if S.isValid new_geom then some new_geom else some g

/-- The acceptance quotient of `fix_with_zero_buffer`
(src/core/gt_check_functions.py:277-280): `new_geom.area / geom.area` when
the original area is positive, and the sentinel `10000` otherwise (the
division is never evaluated for a zero-area geometry). -/
def zero_buffer_area_quot (S : ShapelyOps) (g : Geom) : ℚ :=
  if S.area g > 0 then S.area (S.buffer0 g) / S.area g else 10000

/-- `fix_with_zero_buffer` (src/core/gt_check_functions.py:270-283): on an
invalid geometry compute `buffer(0)` and keep it only when the area quotient
lies in `[0.995, 1.005)`. -/
def fix_with_zero_buffer (S : ShapelyOps) (geom : Option Geom) : Option Geom :=
  match geom with
  | none => none
  | some g =>
    if S.isValid g then some g
    else
      let new_geom := S.buffer0 g
      if 995 / 1000 ≤ zero_buffer_area_quot S g ∧ zero_buffer_area_quot S g < 1005 / 1000 then
        some new_geom
      else some g

/-- `fix_with_2d_polygon` (src/core/gt_check_functions.py:286-291): `None`
becomes the empty polygon; otherwise a WKB round trip with
`output_dimension=2`, which is the identity on the 2D geometries modelled
here. -/
def fix_with_2d_polygon (geom : Option Geom) : Geom :=
  match geom with
  | none => []
  | some g => g

/-- `replace_multipolygons` (src/core/gt_check_functions.py:349-375)
restricted to the `Polygon` branch, the only geometry type this model
carries (a `Polygon` is returned unchanged). -/
def replace_multipolygons (geom : Geom) : Geom :=
  geom

/-- `geom.bounds` of a nonempty ring: `(minx, miny, maxx, maxy)`. -/
def geom_bounds (geom : Geom) : ℚ × ℚ × ℚ × ℚ :=
  match geom with
  | [] => (0, 0, 0, 0)
  | p :: ps =>
    (ps.foldl (fun m q => min m q.1) p.1,
     ps.foldl (fun m q => min m q.2) p.2,
     ps.foldl (fun m q => max m q.1) p.1,
     ps.foldl (fun m q => max m q.2) p.2)

/-- `replace_area_zero` (src/core/gt_check_functions.py:329-336): in this
core variant the condition is `geom.area == 0 and geom.is_empty`, so only an
(already empty) geometry is replaced by a fresh empty polygon. -/
def replace_area_zero (S : ShapelyOps) (geom : Option Geom) : Option Geom :=
  match geom with
  | none => none
  | some g => if S.area g = 0 ∧ g = [] then some [] else some g

/-- `replace_none_geometries` (src/core/gt_check_functions.py:378-382). -/
def replace_none_geometries (geom : Option Geom) : Geom :=
  match geom with
  | none => []
  | some g => g

/-- `replace_out_of_bound_geometries` (src/core/gt_check_functions.py:385-392):
replace a geometry whose bounds leave `(-180,180) × (-80,84)` by the empty
polygon. -/
def replace_out_of_bound_geometries (geom : Geom) : Geom :=
  if geom = [] then geom
  else
    let b := geom_bounds geom
    if b.1 ≤ -180 ∨ 180 ≤ b.2.2.1 ∨ b.2.1 ≤ -80 ∨ 84 ≤ b.2.2.2 then []
    else geom

/-- `replace_invalid` (src/core/gt_check_functions.py:339-346): a still
invalid geometry becomes a tiny buffered representative point when its zero
buffer is empty, and the empty polygon otherwise. -/
def replace_invalid (S : ShapelyOps) (geom : Geom) : Geom :=
  if S.isValid geom then geom
  else if S.buffer0 geom = [] then S.reprPointBuf geom
  else []

/-- Python `~bool`: bitwise negation after int coercion (`~True == -2`,
`~False == -1`), both of which are truthy. -/
def pyBitNot (b : Bool) : ℤ :=
  if b then -2 else -1

/-- `geom_to_utm_with_crs` (src/core/gt_check_functions.py:420-435):
returns the bare geometry (`Sum.inl`) for an empty input or an
out-of-UTM-bounds centroid (then an empty polygon), and otherwise
(`Sum.inr`) the projected geometry (the accompanying CRS dictionary is
determined by the same centroid and is carried implicitly by `fromUTM`). -/
def geom_to_utm_with_crs (S : ShapelyOps) (geom : Geom) : Sum Geom Geom :=
  if geom = [] then Sum.inl geom
  else
    let c := S.centroid geom
    if ¬ (-80 ≤ c.2 ∧ c.2 ≤ 84) then Sum.inl []
    else if ¬ (-180 ≤ c.1 ∧ c.1 ≤ 180) then Sum.inl []
    else Sum.inr (S.toUTM geom)

/-- `simplify_geometry` (src/core/gt_check_functions.py:438-459) with the
default `units="meters"`.  The final guard `if ~simple_geom.is_valid:` is
Python bitwise negation of a bool, which is truthy for both `True` and
`False`, so the simplified geometry is always discarded in favour of the
input (the unreachable `return simple_geom` is still modelled). -/
def simplify_geometry (S : ShapelyOps) (geom : Geom) (tolerance : ℚ) : Geom :=
  if geom = [] then geom
  else
    match geom_to_utm_with_crs S geom with
    | Sum.inl g => g
    | Sum.inr utm_geom =>
      let simple_geom := S.fromUTM (S.simplifyTopo utm_geom tolerance)
      if pyBitNot (S.isValid simple_geom) ≠ 0 then geom else simple_geom

/-- `GeometryFixer.fix_geometry` (src/core/gt_check_functions.py:736-769), the
per-record geometry transformation of the repair chain, in source order
(the `original_vertices` bookkeeping column and the printed counts do not
touch the geometry and are omitted).  The inline type-rejection lambda maps
`Point`/`LineString`/`MultiLineString` to the empty polygon; on the
`Polygon`-only geometries modelled here it keeps the geometry. -/
def fix_geometry (S : ShapelyOps) (geom : Geom) : Geom :=
  let g1 := remove_duplicate_vertices geom
  let g2 := fix_self_intersecting_square S (some g1)
  let g3 := fix_with_orient S g2
  let g4 := fix_with_rewind S g3
  let g5 := fix_with_zero_buffer S g4
  let g6 := fix_with_2d_polygon g5
  let g7 := g6
  let g8 := replace_multipolygons g7
  let g9 := simplify_geometry S g8 (1 / 10)
  let g10 := replace_area_zero S (some g9)
  let g11 := replace_none_geometries g10
  let g12 := replace_out_of_bound_geometries g11
  replace_invalid S g12

/-- `geom_to_utm` (src/core/gt_check_functions.py:400-417): empty stays
empty, an out-of-UTM-bounds centroid gives the empty polygon, otherwise the
geometry is projected to the UTM zone of its centroid. -/
def geom_to_utm (S : ShapelyOps) (geom : Geom) : Geom :=
  if geom = [] then geom
  else
    let c := S.centroid geom
    if ¬ (-80 ≤ c.2 ∧ c.2 ≤ 84) then []
    else if ¬ (-180 ≤ c.1 ∧ c.1 ≤ 180) then []
    else S.toUTM geom

/-- `GeometryValidator.all_points_in_radius`
(src/core/gt_check_functions.py:874-881): for a non-`None` valid geometry,
whether the circle of the given radius around the UTM centroid covers the
UTM-projected geometry; `None` (here `none`) for `None` or invalid input. -/
def all_points_in_radius (S : ShapelyOps) (geom : Option Geom) (radius : ℚ) : Option Bool :=
  match geom with
  | some g =>
    if S.isValid g then
      let geom_utm := geom_to_utm S g
      let circle := S.bufferPoint (S.centroid geom_utm) radius
      some (S.covers circle geom_utm)
    else none
  | none => none

/-- One record of the overlap-detection batch: its id-column value and its
geometry. -/
structure OverlapRec where
  rid : String
  geom : Geom
deriving DecidableEq

/-- The head of the `validate_overlap` pipeline
(src/core/gt_check_functions.py:526-529): project the batch to a shared UTM
frame (`wgs_to_utm`), shrink each geometry by the buffer distance, and
reproject to WGS84. -/
def overlap_prep (S : ShapelyOps) (buffer : ℚ) (recs : List OverlapRec) : List OverlapRec :=
  recs.map (fun r => { r with geom := S.wgsBackProj (S.bufferDist (S.utmBatchProj r.geom) buffer) })

/-- `x.overlay(x, keep_geom_type=False)` on the candidate frame: one row per
ordered pair of intersecting features (self-pairs included), carrying the
pair and its intersection geometry. -/
def overlay_self (S : ShapelyOps) (rows : List OverlapRec) : List (OverlapRec × OverlapRec × Geom) :=
  rows.flatMap (fun a => rows.filterMap (fun b => (S.inter a.geom b.geom).map (fun g => (a, b, g))))

/-- The `df_overlap` frame of `validate_overlap`
(src/core/gt_check_functions.py:526-545): overlay rows with equal id values
dropped, then only the pairs whose intersection area exceeds `min_overlap`
times the smaller of the two areas (areas geodesic, as in
`calculate_area(..., geodisic=True)`). -/
def df_overlap (S : ShapelyOps) (min_overlap buffer : ℚ)
    (filt : List OverlapRec → List OverlapRec) (recs : List OverlapRec) :
    List (OverlapRec × OverlapRec × Geom) :=
  let rows := filt (overlap_prep S buffer recs)
  ((overlay_self S rows).filter (fun t => t.1.rid != t.2.1.rid)).filter
    (fun t => decide (min_overlap < S.geodArea t.2.2 / min (S.geodArea t.1.geom) (S.geodArea t.2.1.geom)))

/-- The `overlap_ids` group of one id value: the partner ids of its flagged
overlay rows, in frame order (`groupby(id_1)[id_2]` with a `";"` join at the
caller). -/
def overlap_ids_of (S : ShapelyOps) (min_overlap buffer : ℚ)
    (filt : List OverlapRec → List OverlapRec) (recs : List OverlapRec) (i : String) : List String :=
  (df_overlap S min_overlap buffer filt recs).filterMap
    (fun t => if t.1.rid = i then some t.2.1.rid else none)

/-- The `percentage_overlap` of one id value: the maximum flagged overlay
quotient of its group, rounded to 2 decimals (`none` when the id has no
flagged row, which the caller renders as `""` after `fillna`). -/
def overlap_pct_of (S : ShapelyOps) (min_overlap buffer : ℚ)
    (filt : List OverlapRec → List OverlapRec) (recs : List OverlapRec) (i : String) : Option ℚ :=
  let rs := (df_overlap S min_overlap buffer filt recs).filterMap
    (fun t => if t.1.rid = i then
        some (S.geodArea t.2.2 / min (S.geodArea t.1.geom) (S.geodArea t.2.1.geom))
      else none)
  match rs with
  | [] => none
  | h :: tl => some (round_to 2 (tl.foldl max h))

/-- `validate_overlap` (src/core/gt_check_functions.py:518-576) merged back
onto the input frame: every input record, with its `";"`-joined overlap ids
(`""` after `fillna` when there are none) and its maximal overlap
percentage. -/
def validate_overlap (S : ShapelyOps) (min_overlap buffer : ℚ)
    (filt : List OverlapRec → List OverlapRec) (recs : List OverlapRec) :
    List (OverlapRec × String × Option ℚ) :=
  recs.map (fun r =>
    (r, String.intercalate ";" (overlap_ids_of S min_overlap buffer filt recs r.rid),
     overlap_pct_of S min_overlap buffer filt recs r.rid))

/-- The 4-vertex example raw string of the specification: accuracies
`[5, 5, 5, 50]`. -/
def c1_example_str : String :=
  "36.8 -1.28 1700.0 5.0;36.9 -1.28 1700.0 5.0;36.9 -1.29 1700.0 5.0;36.8 -1.29 1700.0 50.0"

/-- A well-formed 3-vertex raw string (all accuracies 5). -/
def small_triangle_str : String := "1 2 10 5;3 4 10 5;5 6 10 5"

/-- A raw string whose last vertex token has only two space-separated
fields. -/
def c5_malformed_str : String := "1 2 10 5;3 4 10 5;5 6 10 5;bad token"

/-- A concrete instantiation of the external-library operations used to run
the theorems on explicit inputs: a geometry is "valid" exactly when empty,
its planar area is its coordinate count, and the remaining operations are
constants or identities. -/
def baseOps : ShapelyOps where
  isValid := fun g => g.isEmpty
  area := fun g => (g.length : ℚ)
  geodArea := fun _ => 1
  centroid := fun _ => (0, 0)
  buffer0 := fun _ => []
  convexHull := id
  orientOp := id
  rewindOp := id
  toUTM := id
  fromUTM := id
  simplifyTopo := fun g _ => g
  reprPointBuf := fun _ => []
  covers := fun _ _ => true
  bufferPoint := fun _ _ => []
  inter := fun _ _ => some []
  utmBatchProj := id
  wgsBackProj := id
  bufferDist := fun g _ => g

/-- A variant of `baseOps` whose validity test accepts every geometry. -/
def allValidOps : ShapelyOps :=
  { baseOps with isValid := fun _ => true }

/-- A variant of `baseOps` whose validity test rejects every geometry and
whose planar area is identically zero. -/
def zeroAreaOps : ShapelyOps :=
  { baseOps with isValid := fun _ => false, area := fun _ => 0 }

/-- A record with every failure flag raised, used to instantiate the
short-circuit theorem (its geometry field is varied per case). -/
def rowAllFlags : Row where
  geometry := none
  overlap_ids := some "x;y"
  duplicate_id := some true
  in_country := some false
  in_radius := some false
  area_m2 := some 1
  nr_vertices_too_small := some true
  protruding_ratio_too_big := some true
  subplot_id := some "s1"

/-- `rowAllFlags` with an (empty) geometry. -/
def rowEmptyGeom : Row := { rowAllFlags with geometry := some [] }

/-- `rowAllFlags` with a nonempty geometry. -/
def rowNonemptyGeom : Row := { rowAllFlags with geometry := some [(0, 0)] }

/-- A three-record overlap batch in which two distinct records carry the same
id value. -/
def overlapRecsW : List OverlapRec :=
  [⟨"A", [(0, 0)]⟩, ⟨"A", [(1, 1)]⟩, ⟨"B", [(2, 2)]⟩]

/-- `s.length == 0` is the same test as `s = ""`. -/
theorem string_beq_length_zero_iff (s : String) : (s.length == 0) = true ↔ s = "" := by
  cases s with
  | mk data =>
    cases data with
    | nil => simp [String.length]
    | cons c cs => simp [String.length, String.ext_iff]

/-- Claim C2: the `valid` flag written by `assign_geom_valid_geojson` is
computed as `len(reasons) == 0` and therefore holds exactly when the
collected reasons string is empty; the two can never diverge. -/
theorem assign_geom_valid_geojson_valid_iff_reasons_empty
    (S : ShapelyOps) (row : Row) (min_area max_area : ℚ) :
    (assign_geom_valid_geojson S row min_area max_area).geom_valid = true
      ↔ (assign_geom_valid_geojson S row min_area max_area).reasons = "" := by
  unfold assign_geom_valid_geojson
  exact string_beq_length_zero_iff (collect_reasons_subplot S row min_area max_area)

/-- Claim C7: `collect_reasons_subplot` short-circuits on its three terminal
states: a missing geometry gives exactly `"Geometry missing"`, an empty one
exactly `"Empty geometry"`, an invalid one exactly `"Invalid geometry"`,
whatever the values of every other flag of the record. -/
theorem collect_reasons_subplot_short_circuit
    (S : ShapelyOps) (row : Row) (min_area max_area : ℚ) :
    (row.geometry = none →
      collect_reasons_subplot S row min_area max_area = "Geometry missing")
    ∧ (∀ g, row.geometry = some g → g = [] →
      collect_reasons_subplot S row min_area max_area = "Empty geometry")
    ∧ (∀ g, row.geometry = some g → g ≠ [] → S.isValid g = false →
      collect_reasons_subplot S row min_area max_area = "Invalid geometry") := by
  refine ⟨fun h => ?_, fun g hg he => ?_, fun g hg hne hv => ?_⟩
  · unfold collect_reasons_subplot
    rw [h]
  · unfold collect_reasons_subplot
    rw [hg]
    simp [he]
  · unfold collect_reasons_subplot
    rw [hg]
    simp [hne, hv]

/-- Witness for the short-circuit theorem on concrete records with every
other failure flag raised. -/
theorem collect_reasons_subplot_short_circuit_witness :
    collect_reasons_subplot baseOps rowAllFlags 450 750 = "Geometry missing"
    ∧ collect_reasons_subplot baseOps rowEmptyGeom 450 750 = "Empty geometry"
    ∧ collect_reasons_subplot baseOps rowNonemptyGeom 450 750 = "Invalid geometry" :=
  ⟨(collect_reasons_subplot_short_circuit baseOps rowAllFlags 450 750).1 rfl,
   (collect_reasons_subplot_short_circuit baseOps rowEmptyGeom 450 750).2.1 [] rfl rfl,
   (collect_reasons_subplot_short_circuit baseOps rowNonemptyGeom 450 750).2.2
     [(0, 0)] rfl (by decide) (by decide)⟩

/-- Claim C6: `fix_with_zero_buffer` returns an already valid geometry
unchanged; on an invalid geometry of positive area the acceptance quotient is
the buffered-to-original area quotient, and the buffered geometry is returned
exactly when that quotient lies in the `[0.995, 1.005)` band, the original
otherwise. -/
theorem fix_with_zero_buffer_band_acceptance (S : ShapelyOps) (g : Geom) :
    (S.isValid g = true → fix_with_zero_buffer S (some g) = some g)
    ∧ (S.isValid g = false → 0 < S.area g →
        zero_buffer_area_quot S g = S.area (S.buffer0 g) / S.area g
        ∧ fix_with_zero_buffer S (some g) =
            some (if 995 / 1000 ≤ zero_buffer_area_quot S g
                    ∧ zero_buffer_area_quot S g < 1005 / 1000
                  then S.buffer0 g else g)) := by
  constructor
  · intro h
    unfold fix_with_zero_buffer
    simp [h]
  · intro h hpos
    constructor
    · unfold zero_buffer_area_quot
      rw [if_pos hpos]
    · unfold fix_with_zero_buffer
      simp only [h, Bool.false_eq_true, if_false]
      split <;> rfl

/-- Witness for the zero-buffer band theorem: the empty polygon (valid under
`baseOps`) is returned unchanged, and a one-point invalid geometry of
positive area takes the quotient branch. -/
theorem fix_with_zero_buffer_band_acceptance_witness :
    fix_with_zero_buffer baseOps (some []) = some []
    ∧ (zero_buffer_area_quot baseOps [(0, 0)]
          = baseOps.area (baseOps.buffer0 [(0, 0)]) / baseOps.area [(0, 0)]
       ∧ fix_with_zero_buffer baseOps (some [(0, 0)]) =
          some (if 995 / 1000 ≤ zero_buffer_area_quot baseOps [(0, 0)]
                  ∧ zero_buffer_area_quot baseOps [(0, 0)] < 1005 / 1000
                then baseOps.buffer0 [(0, 0)] else [(0, 0)])) :=
  ⟨(fix_with_zero_buffer_band_acceptance baseOps []).1 (by decide),
   (fix_with_zero_buffer_band_acceptance baseOps [(0, 0)]).2 (by decide)
     (by with_unfolding_all decide)⟩

/-- Claim C10: on an invalid geometry of zero area `fix_with_zero_buffer`
forces the sentinel quotient 10000, which lies outside the acceptance band
(so no division by the zero area is ever performed), and returns the original
geometry unchanged. -/
theorem fix_with_zero_buffer_zero_area_guard (S : ShapelyOps) (g : Geom)
    (h : S.isValid g = false) (h0 : S.area g = 0) :
    zero_buffer_area_quot S g = 10000
    ∧ ¬ (995 / 1000 ≤ zero_buffer_area_quot S g ∧ zero_buffer_area_quot S g < 1005 / 1000)
    ∧ fix_with_zero_buffer S (some g) = some g := by
  have hq : zero_buffer_area_quot S g = 10000 := by
    unfold zero_buffer_area_quot
    rw [if_neg]
    rw [h0]
    exact lt_irrefl 0
  have hband : ¬ (995 / 1000 ≤ zero_buffer_area_quot S g
      ∧ zero_buffer_area_quot S g < 1005 / 1000) := by
    rw [hq]
    rintro ⟨-, hlt⟩
    norm_num at hlt
  refine ⟨hq, hband, ?_⟩
  unfold fix_with_zero_buffer
  simp only [h, Bool.false_eq_true, if_false]
  rw [if_neg hband]

/-- Witness for the zero-area guard on a concrete invalid zero-area
geometry. -/
theorem fix_with_zero_buffer_zero_area_guard_witness :
    zero_buffer_area_quot zeroAreaOps [(0, 0)] = 10000
    ∧ ¬ (995 / 1000 ≤ zero_buffer_area_quot zeroAreaOps [(0, 0)]
          ∧ zero_buffer_area_quot zeroAreaOps [(0, 0)] < 1005 / 1000)
    ∧ fix_with_zero_buffer zeroAreaOps (some [(0, 0)]) = some [(0, 0)] :=
  fix_with_zero_buffer_zero_area_guard zeroAreaOps [(0, 0)] (by decide) (by decide)

/-- Claim C8: `all_points_in_radius` yields `None` for a `None` or invalid
geometry (no exception), and for a valid geometry returns whether the circle
of the given radius around the UTM centroid covers the UTM-projected
geometry. -/
theorem all_points_in_radius_spec (S : ShapelyOps) (geom : Option Geom) (radius : ℚ) :
    (geom = none → all_points_in_radius S geom radius = none)
    ∧ (∀ g, geom = some g → S.isValid g = false →
        all_points_in_radius S geom radius = none)
    ∧ (∀ g, geom = some g → S.isValid g = true →
        all_points_in_radius S geom radius =
          some (S.covers (S.bufferPoint (S.centroid (geom_to_utm S g)) radius)
            (geom_to_utm S g))) := by
  refine ⟨fun h => ?_, fun g hg hv => ?_, fun g hg hv => ?_⟩
  · rw [h]
    rfl
  · rw [hg]
    unfold all_points_in_radius
    simp [hv]
  · rw [hg]
    unfold all_points_in_radius
    simp [hv]

/-- Witness for the radius-check theorem: the `None`, invalid and valid cases
at concrete inputs. -/
theorem all_points_in_radius_spec_witness :
    all_points_in_radius baseOps none 40 = none
    ∧ all_points_in_radius baseOps (some [(0, 0)]) 40 = none
    ∧ all_points_in_radius baseOps (some []) 40 =
        some (baseOps.covers
          (baseOps.bufferPoint (baseOps.centroid (geom_to_utm baseOps [])) 40)
          (geom_to_utm baseOps [])) :=
  ⟨(all_points_in_radius_spec baseOps none 40).1 rfl,
   (all_points_in_radius_spec baseOps (some [(0, 0)]) 40).2.1 [(0, 0)] rfl (by decide),
   (all_points_in_radius_spec baseOps (some []) 40).2.2 [] rfl (by decide)⟩

/-- The dedup branch guard `~len(coords_list) == 0` is never satisfied, so
`remove_duplicate_vertices` returns its input unchanged. -/
theorem remove_duplicate_vertices_eq_self (g : Geom) : remove_duplicate_vertices g = g := by
  unfold remove_duplicate_vertices
  by_cases h : g = []
  · simp [h]
  · have hc : ¬ (-((g.length : ℤ)) - 1 = 0) := by omega
    simp [h, hc]

/-- Python `~b` is nonzero for both boolean values. -/
theorem pyBitNot_ne_zero (b : Bool) : pyBitNot b ≠ 0 := by
  cases b <;> decide

/-- `geom_to_utm_with_crs` on a nonempty geometry: either the bare empty
polygon (out-of-bounds centroid) or the projected geometry. -/
theorem geom_to_utm_with_crs_cases (S : ShapelyOps) (g : Geom) (h : g ≠ []) :
    geom_to_utm_with_crs S g = Sum.inl []
    ∨ geom_to_utm_with_crs S g = Sum.inr (S.toUTM g) := by
  unfold geom_to_utm_with_crs
  rw [if_neg h]
  by_cases h1 : -80 ≤ (S.centroid g).2 ∧ (S.centroid g).2 ≤ 84
  · by_cases h2 : -180 ≤ (S.centroid g).1 ∧ (S.centroid g).1 ≤ 180
    · right
      simp [h1, h2]
    · left
      simp [h1, h2]
  · left
    simp [h1]

/-- Because the final `if ~simple_geom.is_valid:` guard is always truthy,
`simplify_geometry` returns its input, except that an out-of-UTM-bounds
centroid gives the empty polygon. -/
theorem simplify_geometry_eq_self_or_empty (S : ShapelyOps) (g : Geom) (t : ℚ) :
    simplify_geometry S g t = g ∨ simplify_geometry S g t = [] := by
  unfold simplify_geometry
  by_cases h : g = []
  · left
    simp [h]
  · rw [if_neg h]
    rcases geom_to_utm_with_crs_cases S g h with hc | hc
    · right
      rw [hc]
    · left
      rw [hc]
      simp [pyBitNot_ne_zero]

/-- The core `replace_area_zero` only replaces an already empty geometry (its
condition demands `geom.is_empty` as well), so it maps `some x` to `some x`. -/
theorem replace_area_zero_some (S : ShapelyOps) (x : Geom) :
    replace_area_zero S (some x) = some x := by
  show (if S.area x = 0 ∧ x = [] then (some [] : Option Geom) else some x) = some x
  split
  · rename_i h
    rw [h.2]
  · rfl

/-- `replace_out_of_bound_geometries` returns its input or the empty
polygon. -/
theorem replace_out_of_bound_geometries_cases (g : Geom) :
    replace_out_of_bound_geometries g = g ∨ replace_out_of_bound_geometries g = [] := by
  unfold replace_out_of_bound_geometries
  by_cases h : g = []
  · left
    simp [h]
  · rw [if_neg h]
    show (if (geom_bounds g).1 ≤ -180 ∨ 180 ≤ (geom_bounds g).2.2.1
            ∨ (geom_bounds g).2.1 ≤ -80 ∨ 84 ≤ (geom_bounds g).2.2.2
          then ([] : Geom) else g) = g
        ∨ (if (geom_bounds g).1 ≤ -180 ∨ 180 ≤ (geom_bounds g).2.2.1
            ∨ (geom_bounds g).2.1 ≤ -80 ∨ 84 ≤ (geom_bounds g).2.2.2
          then ([] : Geom) else g) = []
    split
    · right
      rfl
    · left
      rfl

/-- `replace_invalid` keeps a valid geometry. -/
theorem replace_invalid_of_valid (S : ShapelyOps) (g : Geom) (h : S.isValid g = true) :
    replace_invalid S g = g := by
  unfold replace_invalid
  rw [if_pos h]

/-- The tail of the repair chain (`replace_area_zero` through
`replace_invalid`) preserves validity of an already valid geometry, given
that the external validity test accepts the empty polygon. -/
theorem fix_geometry_tail_preserves (S : ShapelyOps) (hempty : S.isValid [] = true)
    (y : Geom) (hy : S.isValid y = true) :
    S.isValid (replace_invalid S (replace_out_of_bound_geometries
      (replace_none_geometries (replace_area_zero S (some y))))) = true := by
  rw [replace_area_zero_some]
  show S.isValid (replace_invalid S (replace_out_of_bound_geometries y)) = true
  rcases replace_out_of_bound_geometries_cases y with ho | ho <;> rw [ho]
  · rw [replace_invalid_of_valid S y hy]
    exact hy
  · rw [replace_invalid_of_valid S [] hempty]
    exact hempty

/-- Claim C4: the repair chain `GeometryFixer.fix_geometry` never turns a
valid geometry into an invalid one (every fix step is a no-op on a valid
geometry — the duplicate-vertex step unconditionally so — and the remaining
steps can only substitute the empty polygon, which is valid). -/
theorem fix_geometry_preserves_validity (S : ShapelyOps) (g : Geom)
    (hempty : S.isValid [] = true) (hg : S.isValid g = true) :
    S.isValid (fix_geometry S g) = true := by
  have h2 : fix_self_intersecting_square S (some g) = some g := by
    simp [fix_self_intersecting_square, hg]
  have h3 : fix_with_orient S (some g) = some g := by
    simp [fix_with_orient, hg]
  have h4 : fix_with_rewind S (some g) = some g := by
    simp [fix_with_rewind, hg]
  have h5 : fix_with_zero_buffer S (some g) = some g := by
    simp [fix_with_zero_buffer, hg]
  have hfix : fix_geometry S g = replace_invalid S (replace_out_of_bound_geometries
      (replace_none_geometries (replace_area_zero S
        (some (simplify_geometry S g (1 / 10)))))) := by
    simp only [fix_geometry, remove_duplicate_vertices_eq_self, h2, h3, h4, h5,
      fix_with_2d_polygon, replace_multipolygons]
  rw [hfix]
  rcases simplify_geometry_eq_self_or_empty S g (1 / 10) with hs | hs <;> rw [hs]
  · exact fix_geometry_tail_preserves S hempty g hg
  · exact fix_geometry_tail_preserves S hempty [] hempty

/-- Witness for validity preservation: the full chain run on a concrete
square under an all-accepting validity oracle. -/
theorem fix_geometry_preserves_validity_witness :
    allValidOps.isValid (fix_geometry allValidOps [(0, 0), (1, 0), (1, 1), (0, 1), (0, 0)]) = true :=
  fix_geometry_preserves_validity allValidOps [(0, 0), (1, 0), (1, 1), (0, 1), (0, 0)]
    (by decide) (by decide)

/-- `Polygon(coordinates)` on a nonempty coordinate list is not the empty
polygon. -/
theorem polygonOfCoords_ne_nil (c : ℚ × ℚ) (rest : List (ℚ × ℚ)) :
    polygonOfCoords (c :: rest) ≠ [] := by
  show (if (c :: rest).getLast? = some c then c :: rest else (c :: rest) ++ [c]) ≠ []
  split
  · exact List.cons_ne_nil c rest
  · simp

/-- Claim C1 counterexample: on the specification's own example — four
vertices with accuracies `[5, 5, 5, 50]` and threshold 10, so 3 survive and
1 is skipped — the parser returns the empty polygon, not a triangle: the
code's trust condition is `len(coordinates) < skip_coordinates_counter * 4`
(here `3 < 4`), not the specification's `skipped >= 4 * survived`. -/
theorem geom_from_scto_str_example_not_triangle :
    (coordinates_from_vertices (pySplit ';' c1_example_str.data) 10 false).map
        (fun p => (p.1.length, p.2)) = Except.ok (3, 1)
    ∧ geom_from_scto_str (some c1_example_str) 10 false = Except.ok [] := by
  constructor
  · with_unfolding_all rfl
  · with_unfolding_all rfl

/-- Claim C1 (amended): for a usable raw string whose vertex tokens all
parse, `geom_from_scto_str` returns the canonical empty polygon exactly when
fewer than 3 vertices survive the accuracy filter OR the count of surviving
vertices is less than 4 times the count of skipped vertices. -/
theorem geom_from_scto_str_empty_iff (s : String) (accuracy_m : ℚ)
    (accuracy_zero_valid : Bool) (coords : List (ℚ × ℚ)) (skips : Nat)
    (hlen : s.length ≠ 32767)
    (hparse : coordinates_from_vertices (pySplit ';' s.data) accuracy_m accuracy_zero_valid
      = Except.ok (coords, skips)) :
    (geom_from_scto_str (some s) accuracy_m accuracy_zero_valid = Except.ok []
      ↔ coords.length < 3 ∨ coords.length < skips * 4) := by
  have hinv : is_invalid_polygon_string (some s) = false := by
    unfold is_invalid_polygon_string
    simp [hlen]
  have hred : geom_from_scto_str (some s) accuracy_m accuracy_zero_valid
      = if coords.length < 3 ∨ coords.length < skips * 4 then Except.ok []
        else Except.ok (polygonOfCoords coords) := by
    unfold geom_from_scto_str
    rw [hinv]
    simp only [Bool.false_eq_true, if_false, hparse]
  rw [hred]
  constructor
  · intro h
    by_contra hc
    rw [if_neg hc] at h
    have hne : coords ≠ [] := by
      intro he
      rw [he] at hc
      exact hc (Or.inl (by norm_num))
    obtain ⟨c, rest, rfl⟩ := List.exists_cons_of_ne_nil hne
    exact polygonOfCoords_ne_nil c rest (Except.ok.inj h)
  · intro h
    rw [if_pos h]

/-- Witness for the amended parser edge-case policy: a 3-vertex string with
no skips parses to a (nonempty) triangle, matching the right-hand side being
false. -/
theorem geom_from_scto_str_empty_iff_witness :
    geom_from_scto_str (some small_triangle_str) 10 false = Except.ok []
      ↔ (([(2, 1), (4, 3), (6, 5)] : List (ℚ × ℚ)).length < 3
          ∨ ([(2, 1), (4, 3), (6, 5)] : List (ℚ × ℚ)).length < 0 * 4) :=
  geom_from_scto_str_empty_iff small_triangle_str 10 false [(2, 1), (4, 3), (6, 5)] 0
    (by decide) (by with_unfolding_all rfl)

/-- Claim C5 counterexample: a raw string whose last vertex token is
`"bad token"` (two fields, non-numeric) makes the parser raise — the modelled
call returns an error instead of a polygon, so the malformed token is not
counted as a skip. -/
theorem geom_from_scto_str_malformed_token_raises :
    geom_from_scto_str (some c5_malformed_str) 10 false = Except.error ()
    ∧ exceptIsOk (geom_from_scto_str (some c5_malformed_str) 10 false) = false := by
  constructor
  · with_unfolding_all rfl
  · with_unfolding_all rfl

/-- On a vertex list whose tokens are all well-formed (in the
`vertex_token_ok` sense), `coordinates_from_vertices` never raises. -/
theorem coordinates_from_vertices_ok_of_wellformed (accuracy_m : ℚ)
    (accuracy_zero_valid : Bool) :
    ∀ vertices : List (List Char),
      (∀ v ∈ vertices, vertex_token_ok accuracy_m accuracy_zero_valid v = true) →
      exceptIsOk (coordinates_from_vertices vertices accuracy_m accuracy_zero_valid) = true := by
  intro vertices
  induction vertices with
  | nil => intro _; rfl
  | cons v rest ih =>
    intro h
    have hv := h v (List.mem_cons_self v rest)
    have hr := ih (fun x hx => h x (List.mem_cons_of_mem v hx))
    unfold coordinates_from_vertices
    by_cases hb : pyStrip v = []
    · rw [if_pos hb]
      cases hcr : coordinates_from_vertices rest accuracy_m accuracy_zero_valid with
      | error e =>
        rw [hcr] at hr
        exact absurd hr (by simp [exceptIsOk])
      | ok p =>
        obtain ⟨cs, k⟩ := p
        simp [hcr, exceptIsOk]
    · rw [if_neg hb]
      unfold vertex_token_ok at hv
      rw [if_neg hb] at hv
      cases hacc : ((pySplit ' ' (pyStrip v))[3]?).bind parseRat? with
      | none =>
        simp only [hacc] at hv
        exact absurd hv (by simp)
      | some accuracy =>
        simp only [hacc] at hv
        simp only [hacc]
        by_cases hskip : skip_vertex accuracy accuracy_m accuracy_zero_valid = true
        · rw [if_pos hskip]
          cases hcr : coordinates_from_vertices rest accuracy_m accuracy_zero_valid with
          | error e =>
            rw [hcr] at hr
            exact absurd hr (by simp [exceptIsOk])
          | ok p =>
            obtain ⟨cs, k⟩ := p
            simp [exceptIsOk]
        · rw [if_neg hskip]
          rw [if_neg hskip] at hv
          rw [Bool.and_eq_true, Option.isSome_iff_exists, Option.isSome_iff_exists] at hv
          obtain ⟨⟨lon, hlon⟩, ⟨lat, hlat⟩⟩ := hv
          rw [hlon, hlat]
          cases hcr : coordinates_from_vertices rest accuracy_m accuracy_zero_valid with
          | error e =>
            rw [hcr] at hr
            exact absurd hr (by simp [exceptIsOk])
          | ok p =>
            obtain ⟨cs, k⟩ := p
            simp [exceptIsOk]

/-- Claim C5 (amended): only empty/whitespace vertex tokens are counted as
skips without error (besides accuracy-filtered ones); a non-empty token
whose accuracy field — or, for a surviving vertex, longitude/latitude
field — is missing or non-numeric makes the parser raise.  For every raw
string all of whose tokens are well-formed in that sense, the parser never
raises and returns a polygon (possibly empty). -/
theorem geom_from_scto_str_ok_of_wellformed (s : String) (accuracy_m : ℚ)
    (accuracy_zero_valid : Bool)
    (h : ∀ v ∈ pySplit ';' s.data, vertex_token_ok accuracy_m accuracy_zero_valid v = true) :
    exceptIsOk (geom_from_scto_str (some s) accuracy_m accuracy_zero_valid) = true := by
  unfold geom_from_scto_str
  by_cases hinv : is_invalid_polygon_string (some s) = true
  · rw [if_pos hinv]
    rfl
  · rw [if_neg hinv]
    have hok := coordinates_from_vertices_ok_of_wellformed accuracy_m accuracy_zero_valid
      (pySplit ';' s.data) h
    cases hcr : coordinates_from_vertices (pySplit ';' s.data) accuracy_m accuracy_zero_valid with
    | error e =>
      rw [hcr] at hok
      exact absurd hok (by simp [exceptIsOk])
    | ok p =>
      obtain ⟨cs, k⟩ := p
      simp only [hcr]
      split <;> rfl

/-- Witness for the amended parser error-handling claim: a concrete raw
string with a blank token and an accuracy-filtered token parses without
raising. -/
theorem geom_from_scto_str_ok_of_wellformed_witness :
    exceptIsOk (geom_from_scto_str (some "1 2 10 5; ;3 4 10 5;5 6 10 50;7 8 10 5") 10 false)
      = true :=
  geom_from_scto_str_ok_of_wellformed "1 2 10 5; ;3 4 10 5;5 6 10 50;7 8 10 5" 10 false
    (by with_unfolding_all decide)

/-- Every id collected into an `overlap_ids` group differs from the group's
own id: the pairs with equal id values were dropped from `df_overlap` before
grouping. -/
theorem mem_overlap_ids_of_ne (S : ShapelyOps) (min_overlap buffer : ℚ)
    (filt : List OverlapRec → List OverlapRec) (recs : List OverlapRec) (i : String) :
    ∀ j ∈ overlap_ids_of S min_overlap buffer filt recs i, j ≠ i := by
  intro j hj
  unfold overlap_ids_of at hj
  rw [List.mem_filterMap] at hj
  obtain ⟨t, ht, he⟩ := hj
  unfold df_overlap at ht
  rw [List.mem_filter] at ht
  obtain ⟨ht1, _⟩ := ht
  rw [List.mem_filter] at ht1
  obtain ⟨_, hbne⟩ := ht1
  have hne : t.1.rid ≠ t.2.1.rid := by simpa using hbne
  by_cases hc : t.1.rid = i
  · rw [if_pos hc] at he
    have : t.2.1.rid = j := Option.some.inj he
    rw [← this, ← hc]
    exact fun hji => hne hji.symm
  · rw [if_neg hc] at he
    exact absurd he (by simp)

/-- Claim C9: overlap candidates are excluded by id equality, not record
identity — every flagged overlay row joins two different id values, so two
distinct records carrying the same id are never flagged as overlapping each
other (neither lists the other's id in its `overlap_ids`), however their
geometries intersect. -/
theorem validate_overlap_duplicate_id_not_mutually_flagged
    (S : ShapelyOps) (min_overlap buffer : ℚ)
    (filt : List OverlapRec → List OverlapRec) (recs : List OverlapRec)
    (r1 r2 : OverlapRec) (h1 : r1 ∈ recs) (h2 : r2 ∈ recs)
    (hne : r1 ≠ r2) (hid : r1.rid = r2.rid) :
    ((df_overlap S min_overlap buffer filt recs).all
        (fun t => t.1.rid != t.2.1.rid)) = true
    ∧ r2.rid ∉ overlap_ids_of S min_overlap buffer filt recs r1.rid
    ∧ r1.rid ∉ overlap_ids_of S min_overlap buffer filt recs r2.rid := by
  refine ⟨List.all_eq_true.mpr ?_, fun hm => ?_, fun hm => ?_⟩
  · intro t ht
    unfold df_overlap at ht
    rw [List.mem_filter] at ht
    obtain ⟨ht1, _⟩ := ht
    rw [List.mem_filter] at ht1
    exact ht1.2
  · exact mem_overlap_ids_of_ne S min_overlap buffer filt recs r1.rid r2.rid hm hid.symm
  · exact mem_overlap_ids_of_ne S min_overlap buffer filt recs r2.rid r1.rid hm hid

/-- Witness for the duplicate-id overlap exclusion on a concrete batch whose
intersection oracle makes every pair of records intersect. -/
theorem validate_overlap_duplicate_id_not_mutually_flagged_witness :
    ((df_overlap baseOps 0 (-5) id overlapRecsW).all
        (fun t => t.1.rid != t.2.1.rid)) = true
    ∧ "A" ∉ overlap_ids_of baseOps 0 (-5) id overlapRecsW "A"
    ∧ "A" ∉ overlap_ids_of baseOps 0 (-5) id overlapRecsW "A" :=
  validate_overlap_duplicate_id_not_mutually_flagged baseOps 0 (-5) id overlapRecsW
    ⟨"A", [(0, 0)]⟩ ⟨"A", [(1, 1)]⟩
    (by with_unfolding_all decide) (by with_unfolding_all decide)
    (by with_unfolding_all decide) rfl
